import Mathlib

/-!
Shallow embedding of the candidate-retrieval and selection pipeline of the
youtube-moment repository, translated from `src/services/youtubeService.ts`
and `src/services/geminiService.ts`.

Modelling conventions:
* JavaScript strings are `String`, iterated as `List Char`.
* `undefined`/missing JSON fields are `Option`.
* JavaScript falsiness of a string value (`undefined` or `""`) is `jsFalsyStr`.
* The two external HTTP services (YouTube search/details, Gemini) are
  modelled by passing their responses as explicit inputs; a thrown
  error from a whole call is an explicit `failed`/`Except.error` input.
* Numbers are `Nat`; `Math.floor(t * 0.8 * 60)` for a natural `t` is the
  exact natural-division rendering `t * 8 * 60 / 10`.
-/

/-- Model of `parseInt` on a non-empty decimal digit string. -/
def digitsToNat (ds : List Char) : Nat :=
  ds.foldl (fun acc c => 10 * acc + (c.toNat - '0'.toNat)) 0

/-- One optional regex group `(?:(\d+)X)?` of the duration pattern: a greedy
digit run followed by the component letter.  Because a digit can never be the
component letter, the JavaScript backtracking collapses to: the group matches
iff the maximal digit run is non-empty and is followed by the letter. -/
def grabComponent (letter : Char) (cs : List Char) : Option Nat × List Char :=
  let ds := cs.takeWhile Char.isDigit
  let rest := cs.dropWhile Char.isDigit
  if ds.isEmpty then (none, cs)
  else
    match rest with
    | c :: rest' => if c = letter then (some (digitsToNat ds), rest') else (none, cs)
    | [] => (none, cs)

/-- The three optional groups `(?:(\d+)H)?(?:(\d+)M)?(?:(\d+)S)?` matched in
order after the literal `PT`; an unmatched group defaults to 0
(`parseInt(match[i] || '0', 10)`). -/
def componentsAfterPT (cs : List Char) : Nat × Nat × Nat :=
  let hp := grabComponent 'H' cs
  let mp := grabComponent 'M' hp.2
  let sp := grabComponent 'S' mp.2
  (hp.1.getD 0, mp.1.getD 0, sp.1.getD 0)

/-- Model of `String.prototype.match` with the unanchored pattern
`PT(?:(\d+)H)?(?:(\d+)M)?(?:(\d+)S)?`: since every group is optional, the
regex matches exactly at the first occurrence of the substring `PT`.
Returns the characters after that first `PT`, or `none` if `PT` never occurs. -/
def findPT : List Char → Option (List Char)
  | [] => none
  | c :: cs =>
    match cs with
    | [] => none
    | d :: rest => if c = 'P' ∧ d = 'T' then some rest else findPT cs

/-- Full model of the duration regex match: `none` when the pattern fails,
otherwise the parsed (hours, minutes, seconds) with missing groups as 0. -/
def parsePT (cs : List Char) : Option (Nat × Nat × Nat) :=
  (findPT cs).map componentsAfterPT

/-- Model of `n.toString().padStart(2, '0')`. -/
def pad2 (n : Nat) : String :=
  if (Nat.repr n).length < 2 then "0" ++ Nat.repr n else Nat.repr n

/-- Function `formatDuration` from `youtubeService.ts` (lines 30-42). -/
def formatDuration (isoDuration : String) : String :=
  match parsePT isoDuration.data with
  | none => "0:00"
  | some (h, m, s) =>
    if h > 0 then Nat.repr h ++ ":" ++ pad2 m ++ ":" ++ pad2 s
    else Nat.repr m ++ ":" ++ pad2 s

/-- Function `getDurationRange` from `youtubeService.ts` (lines 327-332):
`{min: Math.max(60, Math.floor(t*0.8*60)), max: Math.floor(t*2*60)}`,
with the floors rendered exactly over naturals. -/
def getDurationRange (targetMinutes : Nat) : Nat × Nat :=
  (max 60 (targetMinutes * 8 * 60 / 10), targetMinutes * 2 * 60)

example : formatDuration "PT1H2M3S" = "1:02:03" := by decide
example : formatDuration "PT5M" = "5:00" := by decide
example : formatDuration "PT45S" = "0:45" := by decide
example : formatDuration "" = "0:00" := by decide
example : formatDuration "PT90S" = "0:90" := by decide
example : formatDuration "abcPT5Mxyz" = "5:00" := by decide
example : formatDuration "PT14M32S" = "14:32" := by decide
example : getDurationRange 15 = (720, 1800) := by decide
example : getDurationRange 5 = (240, 600) := by decide
example : getDurationRange 1 = (60, 120) := by decide

/-- JavaScript `x || d` for an optional string `x` (`undefined` and `""` are
falsy and select the default). -/
def jsOrStr (o : Option String) (d : String) : String :=
  match o with
  | some s => if s = "" then d else s
  | none => d

/-- JavaScript falsiness of an optional string: `undefined` or `""`. -/
def jsFalsyStr (o : Option String) : Bool :=
  match o with
  | some s => s = ""
  | none => true

/-- The `snippet.thumbnails` object: each size's `url`, when present. -/
structure Thumbnails where
  high : Option String
  medium : Option String
  defaultThumb : Option String
deriving DecidableEq

/-- Model of `snippet.thumbnails?.high?.url || snippet.thumbnails?.medium?.url ||
snippet.thumbnails?.default?.url || ''`. -/
def pickThumb (t : Option Thumbnails) : String :=
  match t with
  | none => ""
  | some t => jsOrStr t.high (jsOrStr t.medium (jsOrStr t.defaultThumb ""))

/-- The `snippet` part of a details-API item. -/
structure Snippet where
  title : String
  channelTitle : String
  channelId : String
  description : Option String
  publishedAt : String
  thumbnails : Option Thumbnails
deriving DecidableEq

/-- One item of the YouTube videos (details) API response: `snippet` or
`contentDetails` may be absent; `statistics?.viewCount` is collapsed to the
optional raw view-count string. -/
structure DetailsItem where
  id : String
  snippet : Option Snippet
  contentDetails : Option String
  statistics : Option String
deriving DecidableEq

/-- Record `YouTubeVideoData` from `youtubeService.ts` (lines 8-19). -/
structure YouTubeVideoData where
  videoId : String
  title : String
  channelName : String
  channelId : String
  duration : String
  durationFormatted : String
  thumbnailUrl : String
  publishedAt : String
  description : String
  viewCount : Option Nat
deriving DecidableEq

/-- The object pushed into `results` in `searchVideos` (lines 291-302). -/
def buildEntry (id : String) (sn : Snippet) (dur : String) (stats : Option String) :
    YouTubeVideoData :=
  { videoId := id
    title := sn.title
    channelName := sn.channelTitle
    channelId := sn.channelId
    duration := dur
    durationFormatted := formatDuration dur
    thumbnailUrl := pickThumb sn.thumbnails
    publishedAt := sn.publishedAt
    description := sn.description.getD ""
    viewCount :=
      match stats with
      | some s => if s = "" then none else some (digitsToNat s.data)
      | none => none }

/-- Model of `minDurationSeconds !== undefined && totalSeconds < minDurationSeconds`. -/
def belowMin (minS : Option Nat) (total : Nat) : Bool :=
  match minS with
  | some mn => total < mn
  | none => false

/-- Model of `maxDurationSeconds !== undefined && totalSeconds > maxDurationSeconds`. -/
def aboveMax (maxS : Option Nat) (total : Nat) : Bool :=
  match maxS with
  | some mx => mx < total
  | none => false

/-- The filtering loop of `searchVideos` (lines 268-306): skip items without
snippet/contentDetails, skip unparsable durations, apply each supplied
duration bound, and stop once `maxResults` entries have been pushed (the
length check runs after the push). -/
def filterLoop (maxResults : Nat) (minS maxS : Option Nat) :
    List DetailsItem → List YouTubeVideoData → List YouTubeVideoData
  | [], acc => acc
  | item :: rest, acc =>
    match item.snippet, item.contentDetails with
    | some sn, some dur =>
      match parsePT dur.data with
      | none => filterLoop maxResults minS maxS rest acc
      | some (h, m, s) =>
        if belowMin minS (h * 3600 + m * 60 + s) then
          filterLoop maxResults minS maxS rest acc
        else if aboveMax maxS (h * 3600 + m * 60 + s) then
          filterLoop maxResults minS maxS rest acc
        else if maxResults ≤ (acc ++ [buildEntry item.id sn dur item.statistics]).length then
          acc ++ [buildEntry item.id sn dur item.statistics]
        else filterLoop maxResults minS maxS rest
          (acc ++ [buildEntry item.id sn dur item.statistics])
    | _, _ => filterLoop maxResults minS maxS rest acc

/-- Model of `searchData.items.map(i => i.id.videoId).filter(Boolean)`: the raw search
items' optional video ids with `undefined` and `""` dropped. -/
def videoIdsOf (searchItems : List (Option String)) : List String :=
  (searchItems.map (fun o => o.getD "")).filter (fun s => s ≠ "")

/-- The `maxResults` query parameter sent to the search API
(line 205): `Math.min(maxResults * 2, 50)`. -/
def requestedRawHits (maxResults : Nat) : Nat :=
  min (maxResults * 2) 50

/-- Pure core of `searchVideos` (lines 192-315) given the two API responses:
the raw search items (each contributing an optional video id) and the details
items fetched for those ids.  An empty id list short-circuits to `[]`
(which coincides with the loop's behaviour on an empty details list). -/
def searchVideosModel (maxResults : Nat) (minS maxS : Option Nat)
    (searchItems : List (Option String)) (detailsItems : List DetailsItem) :
    List YouTubeVideoData :=
  if videoIdsOf searchItems = [] then [] else filterLoop maxResults minS maxS detailsItems []

/-- The character class `\w` of the JavaScript regex `[^\w\s]` (no unicode
flag): ASCII letters, digits and underscore. -/
def jsWordChar (c : Char) : Bool :=
  c.isAlphanum || c = '_'

/-- The ECMAScript character class `\s` (also the set stripped by
`String.prototype.trim`): tab, line feed, vertical tab, form feed,
carriage return, space, no-break space U+00A0, U+1680, the range
U+2000-U+200A, the line/paragraph separators U+2028/U+2029, U+202F,
U+205F, the ideographic space U+3000 and the ZWNBSP U+FEFF. -/
def jsSpaceChar (c : Char) : Bool :=
  c.toNat = 9 || c.toNat = 10 || c.toNat = 11 || c.toNat = 12 || c.toNat = 13 ||
  c.toNat = 32 || c.toNat = 160 || c.toNat = 5760 ||
  (8192 ≤ c.toNat && c.toNat ≤ 8202) ||
  c.toNat = 8232 || c.toNat = 8233 || c.toNat = 8239 || c.toNat = 8287 ||
  c.toNat = 12288 || c.toNat = 65279

/-- Model of `String.prototype.trim`: strip the ECMAScript whitespace set
(`jsSpaceChar`) from both ends. -/
def jsTrim (s : String) : String :=
  ⟨((s.data.dropWhile jsSpaceChar).reverse.dropWhile jsSpaceChar).reverse⟩

/-- Per-mood query construction in `fetchVideoSuggestion` (lines 54-58):
`mood.replace(/[^\w\s]/g, '').trim()`, falling back to the raw mood when
the cleaned string is empty (`cleanMood || mood`). -/
def cleanQuery (mood : String) : String :=
  let cleanMood := jsTrim ⟨mood.data.filter (fun c => jsWordChar c || jsSpaceChar c)⟩
  if cleanMood = "" then mood else cleanMood

/-- Outcome of one `searchVideos` call inside the aggregation loop: either
the call threw (any cause — HTTP failure, quota, network) and was caught by
the per-mood `try/catch`, or it returned, determined by the two API
responses it saw. -/
inductive SearchOutcome where
  | failed
  | ok (searchItems : List (Option String)) (detailsItems : List DetailsItem)
deriving DecidableEq

/-- Videos contributed by one mood query (lines 65-79): a failed search
contributes nothing; a successful one contributes
`searchVideos(query, key, 15, range.min, range.max)`. -/
def runMoodSearch (range : Nat × Nat) (o : SearchOutcome) : List YouTubeVideoData :=
  match o with
  | .failed => []
  | .ok searchItems detailsItems =>
    searchVideosModel 15 (some range.1) (some range.2) searchItems detailsItems

/-- Value `allVideos` after the aggregation loop: each search query is paired with
its outcome and the per-query result lists are concatenated in mood order. -/
def allVideosModel (time : Nat) (moods : List String) (outcomes : List SearchOutcome) :
    List YouTubeVideoData :=
  (((moods.map cleanQuery).zip outcomes).map
    (fun p => runMoodSearch (getDurationRange time) p.2)).flatten

/-- One step of `new Map(allVideos.map(v => [v.videoId, v]))`: JavaScript
`Map.set` keeps the position of the first insertion of a key but overwrites
its value. -/
def jsMapInsert (acc : List YouTubeVideoData) (v : YouTubeVideoData) :
    List YouTubeVideoData :=
  if acc.any (fun w => w.videoId = v.videoId) then
    acc.map (fun w => if w.videoId = v.videoId then v else w)
  else acc ++ [v]

/-- Model of `Array.from(new Map(vs.map(v => [v.videoId, v])).values())`. -/
def jsMapValues (vs : List YouTubeVideoData) : List YouTubeVideoData :=
  vs.foldl jsMapInsert []

/-- Value `uniqueVideos` (lines 82-84): dedup by videoId, then `.slice(0, 20)`. -/
def uniqueVideosModel (vs : List YouTubeVideoData) : List YouTubeVideoData :=
  (jsMapValues vs).take 20

/-- The Gemini response text as far as the pipeline inspects it: either
`JSON.parse` throws, or it yields an object whose three relevant fields may
each be absent. -/
inductive GeminiResponse where
  | malformedJSON
  | parsed (selectedVideoId : Option String) (tags : Option (List String))
      (promotionalSummary : Option String)
deriving DecidableEq

/-- The errors `fetchVideoSuggestion` can throw, one per `throw` site
reachable from the pipeline (the outer `catch` rethrows them). -/
inductive SuggestError where
  | noCandidates
  | oracleCallFailed
  | oracleParseError
  | oracleNoSelection
deriving DecidableEq

/-- Record `VideoSuggestion` from `types.ts`; `promotionalSummary` is optional
because the non-fallback path passes `selectionData.promotionalSummary`
through without a default, so it can be `undefined` at runtime. -/
structure VideoSuggestion where
  title : String
  youtubeUrl : String
  thumbnailUrl : String
  channelName : String
  duration : String
  tags : List String
  promotionalSummary : Option String
deriving DecidableEq

/-- The string `A perfect <time>-minute video for your current mood.` -/
def genericSummary (time : Nat) : String :=
  "A perfect " ++ Nat.repr time ++ "-minute video for your current mood."

/-- The suggestion built when Gemini's id matches a candidate (lines 156-164). -/
def mkFound (v : YouTubeVideoData) (tags : Option (List String))
    (summary : Option String) : VideoSuggestion :=
  { title := v.title
    youtubeUrl := "https://www.youtube.com/watch?v=" ++ v.videoId
    thumbnailUrl := v.thumbnailUrl
    channelName := v.channelName
    duration := v.durationFormatted
    tags := tags.getD []
    promotionalSummary := summary }

/-- The fallback suggestion built from the first candidate when Gemini's id
is not in the list (lines 139-153); an absent or empty summary is replaced
by the generic duration-based one. -/
def mkFallback (time : Nat) (v : YouTubeVideoData) (tags : Option (List String))
    (summary : Option String) : VideoSuggestion :=
  { title := v.title
    youtubeUrl := "https://www.youtube.com/watch?v=" ++ v.videoId
    thumbnailUrl := v.thumbnailUrl
    channelName := v.channelName
    duration := v.durationFormatted
    tags := tags.getD []
    promotionalSummary := some (jsOrStr summary (genericSummary time)) }

/-- Steps 3-5 of `fetchVideoSuggestion` (lines 86-166), applied to the
deduplicated candidate list: the empty-candidates check, the Gemini call,
the JSON shape checks (`JSON.parse` failure and the falsiness check on
`selectedVideoId`), the lookup of the selected id, and the assembly of the
final suggestion (with the first-candidate fallback). -/
def selectStep (time : Nat) (uniq : List YouTubeVideoData)
    (gemini : Except Unit GeminiResponse) : Except SuggestError VideoSuggestion :=
  match uniq with
  | [] => .error .noCandidates
  | first :: rest =>
    match gemini with
    | .error _ => .error .oracleCallFailed
    | .ok .malformedJSON => .error .oracleParseError
    | .ok (.parsed sel tags summary) =>
      match sel with
      | none => .error .oracleNoSelection
      | some selId =>
        if selId = "" then .error .oracleNoSelection
        else
          match (first :: rest).find? (fun v => v.videoId = selId) with
          | some v => .ok (mkFound v tags summary)
          | none => .ok (mkFallback time first tags summary)

/-- Pure core of `fetchVideoSuggestion` from `geminiService.ts`
(lines 47-191), with the per-mood search outcomes and the Gemini call's
outcome supplied as explicit inputs. -/
def fetchVideoSuggestionModel (time : Nat) (moods : List String)
    (outcomes : List SearchOutcome) (gemini : Except Unit GeminiResponse) :
    Except SuggestError VideoSuggestion :=
  selectStep time (uniqueVideosModel (allVideosModel time moods outcomes)) gemini

instance {ε α : Type} [DecidableEq ε] [DecidableEq α] : DecidableEq (Except ε α) := by
  intro a b
  cases a <;> cases b
  case error.error e e' =>
    exact if h : e = e' then .isTrue (by rw [h]) else .isFalse (by simp [h])
  case error.ok e v => exact .isFalse (by simp)
  case ok.error v e => exact .isFalse (by simp)
  case ok.ok v v' =>
    exact if h : v = v' then .isTrue (by rw [h]) else .isFalse (by simp [h])

/-- A concrete details item used in witnesses: an 872-second video, inside
the band for a 15-minute target. -/
def demoItem : DetailsItem :=
  { id := "aaaaaaaaaaa"
    snippet := some
      { title := "Calm Flight"
        channelTitle := "SkyDocs"
        channelId := "ch111111111"
        description := some "A quiet documentary."
        publishedAt := "2024-01-01T00:00:00Z"
        thumbnails := some { high := some "h.jpg", medium := none, defaultThumb := none } }
    contentDetails := some "PT14M32S"
    statistics := some "1200" }

/-- The aggregation outcome list used in witnesses: one mood whose search
returned `demoItem`. -/
def demoOutcomes : List SearchOutcome :=
  [.ok [some "aaaaaaaaaaa"] [demoItem]]

/-- A catalog entry's parsed duration respects each supplied bound. -/
def durationWithin (minS maxS : Option Nat) (v : YouTubeVideoData) : Prop :=
  ∃ h m s, parsePT v.duration.data = some (h, m, s) ∧
    (∀ mn, minS = some mn → mn ≤ h * 3600 + m * 60 + s) ∧
    (∀ mx, maxS = some mx → h * 3600 + m * 60 + s ≤ mx)

theorem filterLoop_length (maxResults : Nat) (minS maxS : Option Nat) :
    ∀ (items : List DetailsItem) (acc : List YouTubeVideoData),
      acc.length < maxResults →
      (filterLoop maxResults minS maxS items acc).length ≤ maxResults := by
  intro items
  induction items with
  | nil => intro acc h; simpa [filterLoop] using Nat.le_of_lt h
  | cons item rest ih =>
    intro acc h
    rw [filterLoop]
    split
    · split
      · exact ih acc h
      · split
        · exact ih acc h
        · split
          · exact ih acc h
          · split
            · simp only [List.length_append, List.length_singleton]
              omega
            · refine ih _ ?_
              exact Nat.lt_of_not_le ‹¬ maxResults ≤ _›
    · exact ih acc h

theorem filterLoop_mem (maxResults : Nat) (minS maxS : Option Nat) :
    ∀ (items : List DetailsItem) (acc : List YouTubeVideoData),
      (∀ v ∈ acc, durationWithin minS maxS v) →
      ∀ v ∈ filterLoop maxResults minS maxS items acc, durationWithin minS maxS v := by
  intro items
  induction items with
  | nil => intro acc hacc; simpa [filterLoop] using hacc
  | cons item rest ih =>
    intro acc hacc
    rw [filterLoop]
    split
    · rename_i sn dur hsn hdur
      split
      · exact ih acc hacc
      · rename_i h m s hparse
        have hpush : ∀ v ∈ acc ++ [buildEntry item.id sn dur item.statistics],
            durationWithin minS maxS v → True := fun _ _ _ => trivial
        split
        · exact ih acc hacc
        · split
          · exact ih acc hacc
          · rename_i hmin hmax
            have hentry : durationWithin minS maxS
                (buildEntry item.id sn dur item.statistics) := by
              refine ⟨h, m, s, hparse, ?_, ?_⟩
              · intro mn hmn
                have : belowMin minS (h * 3600 + m * 60 + s) = false := by
                  simpa using hmin
                simp [belowMin, hmn] at this
                omega
              · intro mx hmx
                have : aboveMax maxS (h * 3600 + m * 60 + s) = false := by
                  simpa using hmax
                simp [aboveMax, hmx] at this
                omega
            have hacc' : ∀ v ∈ acc ++ [buildEntry item.id sn dur item.statistics],
                durationWithin minS maxS v := by
              intro v hv
              rcases List.mem_append.mp hv with hv | hv
              · exact hacc v hv
              · simpa using (List.mem_singleton.mp hv ▸ hentry)
            split
            · exact hacc'
            · exact ih _ hacc'
    · exact ih acc hacc
example :
    (fetchVideoSuggestionModel 15 ["Curious 🤔"] demoOutcomes
      (.ok (.parsed (some "aaaaaaaaaaa") (some ["Calm", "Sky", "Docs"]) (some "Nice."))))
      =
    .ok
      { title := "Calm Flight"
        youtubeUrl := "https://www.youtube.com/watch?v=aaaaaaaaaaa"
        thumbnailUrl := "h.jpg"
        channelName := "SkyDocs"
        duration := "14:32"
        tags := ["Calm", "Sky", "Docs"]
        promotionalSummary := some "Nice." } := by decide
example :
    fetchVideoSuggestionModel 15 ["Curious"] [.failed] (.ok .malformedJSON)
      = .error .noCandidates := by decide



example : cleanQuery "Curious 🤔" = "Curious" := by decide
example : cleanQuery "a_b" = "a_b" := by decide
example : cleanQuery "🤔🙂" = "🤔🙂" := by decide
example : cleanQuery "a\u00A0b" = "a\u00A0b" := by decide
example : jsTrim "\u00A0hi\u3000" = "hi" := by decide

theorem searchVideosModel_length (maxResults : Nat) (minS maxS : Option Nat)
    (searchItems : List (Option String)) (detailsItems : List DetailsItem)
    (hs : searchItems.length ≤ requestedRawHits maxResults) :
    (searchVideosModel maxResults minS maxS searchItems detailsItems).length ≤ maxResults := by
  unfold searchVideosModel
  split
  · simp
  · rcases Nat.eq_zero_or_pos maxResults with hz | hpos
    · subst hz
      have : searchItems = [] := by
        simpa [requestedRawHits, List.length_eq_zero] using hs
      simp [videoIdsOf, this] at *
    · exact filterLoop_length maxResults minS maxS detailsItems [] (by simpa using hpos)

theorem searchVideosModel_mem (maxResults : Nat) (minS maxS : Option Nat)
    (searchItems : List (Option String)) (detailsItems : List DetailsItem) :
    ∀ v ∈ searchVideosModel maxResults minS maxS searchItems detailsItems,
      durationWithin minS maxS v := by
  unfold searchVideosModel
  split
  · intro v hv; simp at hv
  · exact filterLoop_mem maxResults minS maxS detailsItems [] (by intro v hv; simp at hv)

theorem searchVideosModel_skip (maxResults : Nat) (minS maxS : Option Nat)
    (searchItems : List (Option String)) (i : String) (sn : Snippet) (d : String)
    (st : Option String) (rest : List DetailsItem)
    (hbad : parsePT d.data = none) :
    searchVideosModel maxResults minS maxS searchItems
        ({ id := i, snippet := some sn, contentDetails := some d, statistics := st } :: rest)
      = searchVideosModel maxResults minS maxS searchItems rest := by
  unfold searchVideosModel
  split
  · rfl
  · rw [filterLoop]
    simp [hbad]

theorem jsMapValues_append_singleton (vs : List YouTubeVideoData) (v : YouTubeVideoData) :
    jsMapValues (vs ++ [v]) = jsMapInsert (jsMapValues vs) v := by
  simp [jsMapValues, List.foldl_append]

theorem mem_of_mem_jsMapValues :
    ∀ (vs : List YouTubeVideoData), ∀ v ∈ jsMapValues vs, v ∈ vs := by
  intro vs
  induction vs using List.reverseRecOn with
  | nil => intro v hv; simp [jsMapValues] at hv
  | append_singleton l a ih =>
    intro v hv
    rw [jsMapValues_append_singleton, jsMapInsert] at hv
    split at hv
    · rcases List.mem_map.mp hv with ⟨w, hw, hfw⟩
      by_cases hkey : w.videoId = a.videoId
      · simp [hkey] at hfw
        simp [← hfw]
      · simp [hkey] at hfw
        exact List.mem_append.mpr (Or.inl (ih v (hfw ▸ hw)))
    · rcases List.mem_append.mp hv with hv | hv
      · exact List.mem_append.mpr (Or.inl (ih v hv))
      · simp at hv
        simp [hv]

theorem jsMapInsert_keys_eq_of_any (acc : List YouTubeVideoData) (v : YouTubeVideoData)
    (h : acc.any (fun w => w.videoId = v.videoId)) :
    (jsMapInsert acc v).map (fun w => w.videoId) = acc.map (fun w => w.videoId) := by
  rw [jsMapInsert, if_pos h, List.map_map]
  refine List.map_congr_left ?_
  intro w _
  by_cases hw : w.videoId = v.videoId <;> simp [hw]

theorem jsMapValues_keys_nodup :
    ∀ (vs : List YouTubeVideoData), ((jsMapValues vs).map (fun w => w.videoId)).Nodup := by
  intro vs
  induction vs using List.reverseRecOn with
  | nil => simp [jsMapValues]
  | append_singleton l a ih =>
    rw [jsMapValues_append_singleton]
    by_cases hany : (jsMapValues l).any (fun w => w.videoId = a.videoId)
    · rw [jsMapInsert_keys_eq_of_any _ _ hany]
      exact ih
    · rw [jsMapInsert, if_neg hany]
      have hnot : a.videoId ∉ (jsMapValues l).map (fun w => w.videoId) := by
        intro hmem
        rcases List.mem_map.mp hmem with ⟨w, hw, hkey⟩
        exact hany (List.any_eq_true.mpr ⟨w, hw, by simp [hkey]⟩)
      simp only [List.map_append, List.map_cons, List.map_nil]
      rw [List.nodup_append]
      refine ⟨ih, List.nodup_singleton _, ?_⟩
      intro x hx
      simp only [List.mem_singleton]
      intro hxa
      exact hnot (hxa ▸ hx)

theorem nodup_keys_filter_length (k : String) :
    ∀ (xs : List YouTubeVideoData), (xs.map (fun w => w.videoId)).Nodup →
      (xs.filter (fun v => v.videoId = k)).length ≤ 1 := by
  intro xs
  induction xs with
  | nil => intro _; simp
  | cons x xs ih =>
    intro hnd
    simp only [List.map_cons, List.nodup_cons] at hnd
    by_cases hx : x.videoId = k
    · have hempty : xs.filter (fun v => v.videoId = k) = [] := by
        rw [List.filter_eq_nil_iff]
        intro w hw
        simp only [decide_eq_true_eq]
        intro hwk
        exact hnd.1 (List.mem_map.mpr ⟨w, hw, by rw [hwk, hx]⟩)
      simp [List.filter_cons, hx, hempty]
    · simpa [List.filter_cons, hx] using ih hnd.2

theorem jsMapValues_lastOcc :
    ∀ (vs : List YouTubeVideoData), ∀ v ∈ jsMapValues vs,
      (vs.filter (fun w => w.videoId = v.videoId)).getLast? = some v := by
  intro vs
  induction vs using List.reverseRecOn with
  | nil => intro v hv; simp [jsMapValues] at hv
  | append_singleton l a ih =>
    intro v hv
    rw [jsMapValues_append_singleton, jsMapInsert] at hv
    rw [List.filter_append]
    by_cases hany : (jsMapValues l).any (fun w => w.videoId = a.videoId)
    · rw [if_pos hany] at hv
      rcases List.mem_map.mp hv with ⟨w, hw, hfw⟩
      by_cases hkey : w.videoId = a.videoId
      · rw [if_pos hkey] at hfw
        subst hfw
        have hfa : (([a]).filter (fun x => x.videoId = a.videoId)) = [a] := by
          simp [List.filter_cons]
        rw [hfa]
        simp [List.getLast?_concat]
      · rw [if_neg hkey] at hfw
        subst hfw
        have hne : ¬ (a.videoId = w.videoId) := fun h => hkey h.symm
        have hfa : (([a]).filter (fun x => x.videoId = w.videoId)) = [] := by
          simp [List.filter_cons, hne]
        rw [hfa, List.append_nil]
        exact ih w hw
    · rw [if_neg hany] at hv
      rcases List.mem_append.mp hv with hv | hv
      · have hkey : ¬ (v.videoId = a.videoId) := fun hk =>
          hany (List.any_eq_true.mpr ⟨v, hv, by simp [hk]⟩)
        have hne : ¬ (a.videoId = v.videoId) := fun h => hkey h.symm
        have hfa : (([a]).filter (fun x => x.videoId = v.videoId)) = [] := by
          simp [List.filter_cons, hne]
        rw [hfa, List.append_nil]
        exact ih v hv
      · simp only [List.mem_singleton] at hv
        rw [hv]
        have hfa : (([a]).filter (fun x => x.videoId = a.videoId)) = [a] := by
          simp [List.filter_cons]
        rw [hfa]
        simp [List.getLast?_concat]

theorem jsMapValues_keyExists :
    ∀ (vs : List YouTubeVideoData) (k : String), (∃ w ∈ vs, w.videoId = k) →
      ∃ u ∈ jsMapValues vs, u.videoId = k := by
  intro vs
  induction vs using List.reverseRecOn with
  | nil => intro k hk; simp at hk
  | append_singleton l a ih =>
    intro k hk
    rw [jsMapValues_append_singleton, jsMapInsert]
    by_cases hany : (jsMapValues l).any (fun w => w.videoId = a.videoId)
    · rw [if_pos hany]
      rcases hk with ⟨w, hw, hwk⟩
      rcases List.mem_append.mp hw with hw | hw
      · rcases ih k ⟨w, hw, hwk⟩ with ⟨u, hu, huk⟩
        by_cases hua : u.videoId = a.videoId
        · exact ⟨a, List.mem_map.mpr ⟨u, hu, by simp [hua]⟩, by rw [← hua, huk]⟩
        · exact ⟨u, List.mem_map.mpr ⟨u, hu, by simp [hua]⟩, huk⟩
      · simp only [List.mem_singleton] at hw
        rcases List.any_eq_true.mp hany with ⟨u, hu, hua⟩
        simp only [decide_eq_true_eq] at hua
        exact ⟨a, List.mem_map.mpr ⟨u, hu, by simp [hua]⟩, by rw [← hw]; exact hwk⟩
    · rw [if_neg hany]
      rcases hk with ⟨w, hw, hwk⟩
      rcases List.mem_append.mp hw with hw | hw
      · rcases ih k ⟨w, hw, hwk⟩ with ⟨u, hu, huk⟩
        exact ⟨u, List.mem_append.mpr (Or.inl hu), huk⟩
      · simp only [List.mem_singleton] at hw
        exact ⟨a, List.mem_append.mpr (Or.inr (by simp)), by rw [← hw]; exact hwk⟩

theorem mem_uniqueVideos_sub (vs : List YouTubeVideoData) :
    ∀ v ∈ uniqueVideosModel vs, v ∈ vs := by
  intro v hv
  exact mem_of_mem_jsMapValues vs v (List.take_subset 20 (jsMapValues vs) hv)

theorem mem_allVideos_within (time : Nat) (moods : List String)
    (outcomes : List SearchOutcome) :
    ∀ v ∈ allVideosModel time moods outcomes,
      durationWithin (some (getDurationRange time).1) (some (getDurationRange time).2) v := by
  intro v hv
  unfold allVideosModel at hv
  rcases List.mem_flatten.mp hv with ⟨L, hL, hvL⟩
  rcases List.mem_map.mp hL with ⟨p, _, hpL⟩
  subst hpL
  cases hp : p.2 with
  | failed =>
    rw [hp] at hvL
    simp [runMoodSearch] at hvL
  | ok si di =>
    rw [hp] at hvL
    exact searchVideosModel_mem 15 _ _ si di v (by simpa [runMoodSearch] using hvL)

theorem mem_uniqueVideos_within (time : Nat) (moods : List String)
    (outcomes : List SearchOutcome) :
    ∀ v ∈ uniqueVideosModel (allVideosModel time moods outcomes),
      durationWithin (some (getDurationRange time).1) (some (getDurationRange time).2) v := by
  intro v hv
  exact mem_allVideos_within time moods outcomes v
    (mem_uniqueVideos_sub _ v hv)

theorem selectStep_ok_shape (time : Nat) (uniq : List YouTubeVideoData)
    (gemini : Except Unit GeminiResponse) (sugg : VideoSuggestion)
    (hok : selectStep time uniq gemini = .ok sugg) :
    ∃ v ∈ uniq, sugg.duration = v.durationFormatted ∧
      sugg.youtubeUrl = "https://www.youtube.com/watch?v=" ++ v.videoId := by
  cases uniq with
  | nil => simp [selectStep] at hok
  | cons first rest =>
    cases gemini with
    | error e => simp [selectStep] at hok
    | ok resp =>
      cases resp with
      | malformedJSON => simp [selectStep] at hok
      | parsed sel tags summary =>
        cases sel with
        | none => simp [selectStep] at hok
        | some selId =>
          by_cases hsel : selId = ""
          · simp [selectStep, hsel] at hok
          · cases hfind : (first :: rest).find? (fun v => v.videoId = selId) with
            | some v =>
              simp only [selectStep, if_neg hsel, hfind, Except.ok.injEq] at hok
              subst hok
              exact ⟨v, List.mem_of_find?_eq_some hfind, rfl, rfl⟩
            | none =>
              simp only [selectStep, if_neg hsel, hfind, Except.ok.injEq] at hok
              subst hok
              exact ⟨first, by simp, rfl, rfl⟩

theorem selectStep_noCandidates_iff (time : Nat) (uniq : List YouTubeVideoData)
    (gemini : Except Unit GeminiResponse) :
    selectStep time uniq gemini = .error .noCandidates ↔ uniq = [] := by
  cases uniq with
  | nil => simp [selectStep]
  | cons first rest =>
    simp only [List.cons_ne_nil, iff_false]
    cases gemini with
    | error e => simp [selectStep]
    | ok resp =>
      cases resp with
      | malformedJSON => simp [selectStep]
      | parsed sel tags summary =>
        cases sel with
        | none => simp [selectStep]
        | some selId =>
          by_cases hsel : selId = ""
          · simp [selectStep, hsel]
          · cases hfind : (first :: rest).find? (fun v => v.videoId = selId) with
            | some v => simp [selectStep, if_neg hsel, hfind]
            | none => simp [selectStep, if_neg hsel, hfind]

theorem allVideos_middle (time : Nat) (moods : List String)
    (o₁ o₂ : List SearchOutcome) (x y : SearchOutcome)
    (hxy : runMoodSearch (getDurationRange time) x = runMoodSearch (getDurationRange time) y) :
    allVideosModel time moods (o₁ ++ x :: o₂) = allVideosModel time moods (o₁ ++ y :: o₂) := by
  unfold allVideosModel
  generalize moods.map cleanQuery = qs
  induction qs generalizing o₁ with
  | nil => simp
  | cons q qs ih =>
    cases o₁ with
    | nil =>
      simp only [List.nil_append, List.zip_cons_cons, List.map_cons, List.flatten_cons]
      rw [hxy]
    | cons a o₁ =>
      simp only [List.cons_append, List.zip_cons_cons, List.map_cons, List.flatten_cons]
      rw [ih]

theorem runMoodSearch_failed_eq_empty (r : Nat × Nat) :
    runMoodSearch r .failed = runMoodSearch r (.ok [] []) := rfl

/-- The suggestion the pipeline returns on the `demoOutcomes` input when the
oracle selects the demo video. -/
def demoSugg : VideoSuggestion :=
  { title := "Calm Flight"
    youtubeUrl := "https://www.youtube.com/watch?v=aaaaaaaaaaa"
    thumbnailUrl := "h.jpg"
    channelName := "SkyDocs"
    duration := "14:32"
    tags := ["Calm", "Sky", "Docs"]
    promotionalSummary := some "Nice." }

/-- C1: for every non-empty mood list and target in [5,120], whenever
`fetchVideoSuggestion` returns a Suggestion (rather than one of the
enumerated errors of `SuggestError`), the suggestion is assembled from a
deduplicated candidate whose parsed duration in seconds lies within the
DurationBand computed from the target; no out-of-band suggestion is
returned. -/
theorem spec_c1_band (time : Nat) (moods : List String) (outcomes : List SearchOutcome)
    (gemini : Except Unit GeminiResponse) (sugg : VideoSuggestion)
    (hm : moods ≠ []) (ht1 : 5 ≤ time) (ht2 : time ≤ 120)
    (hok : fetchVideoSuggestionModel time moods outcomes gemini = .ok sugg) :
    ∃ v ∈ uniqueVideosModel (allVideosModel time moods outcomes),
      sugg.duration = v.durationFormatted ∧
      sugg.youtubeUrl = "https://www.youtube.com/watch?v=" ++ v.videoId ∧
      ∃ h m s, parsePT v.duration.data = some (h, m, s) ∧
        (getDurationRange time).1 ≤ h * 3600 + m * 60 + s ∧
        h * 3600 + m * 60 + s ≤ (getDurationRange time).2 := by
  rcases selectStep_ok_shape time _ gemini sugg hok with ⟨v, hv, hdur, hurl⟩
  rcases mem_uniqueVideos_within time moods outcomes v hv with ⟨h, m, s, hp, hmin, hmax⟩
  exact ⟨v, hv, hdur, hurl, h, m, s, hp, hmin _ rfl, hmax _ rfl⟩

theorem spec_c1_witness :
    ∃ v ∈ uniqueVideosModel (allVideosModel 15 ["Curious 🤔"] demoOutcomes),
      demoSugg.duration = v.durationFormatted ∧
      demoSugg.youtubeUrl = "https://www.youtube.com/watch?v=" ++ v.videoId ∧
      ∃ h m s, parsePT v.duration.data = some (h, m, s) ∧
        (getDurationRange 15).1 ≤ h * 3600 + m * 60 + s ∧
        h * 3600 + m * 60 + s ≤ (getDurationRange 15).2 :=
  spec_c1_band 15 ["Curious 🤔"] demoOutcomes
    (.ok (.parsed (some "aaaaaaaaaaa") (some ["Calm", "Sky", "Docs"]) (some "Nice.")))
    demoSugg (by decide) (by decide) (by decide) (by decide)

/-- C8: the pipeline fails with `noCandidates` exactly when the deduplicated
candidate set is empty after all mood queries, and a mood query whose search
threw is indistinguishable from one that returned no results — it never
aborts the request by itself. -/
theorem spec_c8_no_candidates (time : Nat) (moods : List String)
    (outcomes : List SearchOutcome) (gemini : Except Unit GeminiResponse) :
    (fetchVideoSuggestionModel time moods outcomes gemini = .error .noCandidates ↔
      uniqueVideosModel (allVideosModel time moods outcomes) = []) ∧
    (∀ o₁ o₂ : List SearchOutcome,
      fetchVideoSuggestionModel time moods (o₁ ++ .failed :: o₂) gemini =
        fetchVideoSuggestionModel time moods (o₁ ++ .ok [] [] :: o₂) gemini) := by
  constructor
  · exact selectStep_noCandidates_iff time _ gemini
  · intro o₁ o₂
    unfold fetchVideoSuggestionModel
    rw [allVideos_middle time moods o₁ o₂ _ _ (runMoodSearch_failed_eq_empty _)]

theorem spec_c8_witness :
    (fetchVideoSuggestionModel 15 ["Curious 🤔"] demoOutcomes
        (.ok (.parsed (some "aaaaaaaaaaa") (some ["Calm", "Sky", "Docs"]) (some "Nice.")))
        = .error .noCandidates ↔
      uniqueVideosModel (allVideosModel 15 ["Curious 🤔"] demoOutcomes) = []) ∧
    fetchVideoSuggestionModel 15 ["Curious 🤔"] ([] ++ .failed :: [])
        (.ok (.parsed (some "aaaaaaaaaaa") (some ["Calm", "Sky", "Docs"]) (some "Nice."))) =
      fetchVideoSuggestionModel 15 ["Curious 🤔"] ([] ++ .ok [] [] :: [])
        (.ok (.parsed (some "aaaaaaaaaaa") (some ["Calm", "Sky", "Docs"]) (some "Nice."))) :=
  ⟨(spec_c8_no_candidates 15 ["Curious 🤔"] demoOutcomes
      (.ok (.parsed (some "aaaaaaaaaaa") (some ["Calm", "Sky", "Docs"]) (some "Nice.")))).1,
   (spec_c8_no_candidates 15 ["Curious 🤔"] []
      (.ok (.parsed (some "aaaaaaaaaaa") (some ["Calm", "Sky", "Docs"]) (some "Nice.")))).2 [] []⟩

/-- C3 (counterexample): the claim's concrete example for target=5 is wrong:
`getDurationRange 5` is `(240, 600)` — `max(60, floor(5*0.8*60)) = 240` —
not the claimed `(60, 600)`. -/
theorem spec_c3_counterexample :
    getDurationRange 5 = (240, 600) ∧ getDurationRange 5 ≠ (60, 600) := by decide

/-- C3 (amended): `getDurationRange` computes
`{min = max(60, floor(target*0.8*60)), max = floor(target*2*60)}`, which for
a natural target equals `(max 60 (48*t), 120*t)`; target=15 yields
`(720, 1800)` and target=5 yields `(240, 600)` (the 60-second clamp is only
reached for targets of at most one minute). -/
theorem spec_c3_duration_range (t : Nat) :
    getDurationRange t = (max 60 (t * 8 * 60 / 10), t * 2 * 60) ∧
    getDurationRange t = (max 60 (48 * t), 120 * t) ∧
    getDurationRange 15 = (720, 1800) ∧
    getDurationRange 5 = (240, 600) ∧
    getDurationRange 1 = (60, 120) := by
  refine ⟨rfl, ?_, by decide, by decide, by decide⟩
  simp only [getDurationRange, Prod.mk.injEq]
  constructor
  · congr 1
    omega
  · ring

/-- C4: `formatDuration` renders a parsed duration as `H:MM:SS` when the
hours component is positive and `M:SS` otherwise, missing components
default to 0, and an unparsable string renders as `0:00`; the claim's four
concrete examples hold. -/
theorem spec_c4_format_duration (s : String) :
    (parsePT s.data = none → formatDuration s = "0:00") ∧
    (∀ h m sec, parsePT s.data = some (h, m, sec) →
      formatDuration s =
        if h > 0 then Nat.repr h ++ ":" ++ pad2 m ++ ":" ++ pad2 sec
        else Nat.repr m ++ ":" ++ pad2 sec) ∧
    parsePT "PT5M".data = some (0, 5, 0) ∧
    parsePT "PT45S".data = some (0, 0, 45) ∧
    formatDuration "PT1H2M3S" = "1:02:03" ∧
    formatDuration "PT5M" = "5:00" ∧
    formatDuration "PT45S" = "0:45" ∧
    formatDuration "" = "0:00" := by
  refine ⟨?_, ?_, by decide, by decide, by decide, by decide, by decide, by decide⟩
  · intro h
    simp [formatDuration, h]
  · intro h m sec hp
    simp [formatDuration, hp]

theorem spec_c4_witness :
    formatDuration "hello" = "0:00" ∧ formatDuration "PT2H3M4S" = "2:03:04" := by
  constructor
  · exact (spec_c4_format_duration "hello").1 (by decide)
  · rw [(spec_c4_format_duration "PT2H3M4S").2.1 2 3 4 (by decide)]
    decide

theorem findPT_cons_cons (c d : Char) (rest : List Char) :
    findPT (c :: d :: rest) = if c = 'P' ∧ d = 'T' then some rest else findPT (d :: rest) :=
  rfl

theorem findPT_isSome_iff :
    ∀ cs : List Char, (findPT cs).isSome ↔ ∃ l r, cs = l ++ 'P' :: 'T' :: r := by
  intro cs
  induction cs with
  | nil =>
    simp only [findPT, Option.isSome_none, Bool.false_eq_true, false_iff]
    rintro ⟨l, r, h⟩
    simp at h
  | cons c cs ih =>
    cases cs with
    | nil =>
      simp only [findPT, Option.isSome_none, Bool.false_eq_true, false_iff]
      rintro ⟨l, r, h⟩
      have hlen := congrArg List.length h
      simp [List.length_append] at hlen
      omega
    | cons d rest =>
      rw [findPT_cons_cons]
      by_cases hpt : c = 'P' ∧ d = 'T'
      · rw [if_pos hpt]
        simp only [Option.isSome_some, true_iff]
        exact ⟨[], rest, by simp [hpt.1, hpt.2]⟩
      · rw [if_neg hpt, ih]
        constructor
        · rintro ⟨l, r, h⟩
          exact ⟨c :: l, r, by simp [h]⟩
        · rintro ⟨l, r, h⟩
          cases l with
          | nil =>
            simp only [List.nil_append, List.cons.injEq] at h
            exact absurd ⟨h.1, h.2.1⟩ hpt
          | cons a l' =>
            simp only [List.cons_append, List.cons.injEq] at h
            exact ⟨l', r, h.2⟩

/-- C10: the duration regex is unanchored and does not normalize component
values: oversized components are emitted verbatim (`PT90S` renders `0:90`),
and the match succeeds exactly when `PT` occurs as a substring anywhere
(`abcPT5Mxyz` parses and renders `5:00`). -/
theorem spec_c10_regex (s : String) :
    ((parsePT s.data).isSome ↔ ∃ l r, s.data = l ++ 'P' :: 'T' :: r) ∧
    formatDuration "PT90S" = "0:90" ∧
    formatDuration "abcPT5Mxyz" = "5:00" ∧
    parsePT "PT90S".data = some (0, 0, 90) := by
  refine ⟨?_, by decide, by decide, by decide⟩
  have hmap : (parsePT s.data).isSome = (findPT s.data).isSome := by
    simp [parsePT]
  rw [hmap]
  exact findPT_isSome_iff s.data

/-- C7: `searchVideos` requests `min(2*maxResults, 50)` raw hits, returns at
most `maxResults` entries, every returned entry's parsed duration respects
each supplied bound, and an entry whose duration does not parse is skipped
without failing the whole search.  The single hypothesis is the search API's
contract that it returns no more raw items than requested. -/
theorem spec_c7_search (maxResults : Nat) (minS maxS : Option Nat)
    (searchItems : List (Option String)) (detailsItems : List DetailsItem)
    (hs : searchItems.length ≤ requestedRawHits maxResults) :
    requestedRawHits maxResults = min (2 * maxResults) 50 ∧
    (searchVideosModel maxResults minS maxS searchItems detailsItems).length ≤ maxResults ∧
    (∀ v ∈ searchVideosModel maxResults minS maxS searchItems detailsItems,
      durationWithin minS maxS v) ∧
    (∀ (i : String) (sn : Snippet) (d : String) (st : Option String)
        (rest : List DetailsItem), parsePT d.data = none →
      searchVideosModel maxResults minS maxS searchItems
          ({ id := i, snippet := some sn, contentDetails := some d,
             statistics := st } :: rest)
        = searchVideosModel maxResults minS maxS searchItems rest) := by
  refine ⟨by simp [requestedRawHits, Nat.mul_comm],
    searchVideosModel_length maxResults minS maxS searchItems detailsItems hs,
    searchVideosModel_mem maxResults minS maxS searchItems detailsItems, ?_⟩
  intro i sn d st rest hbad
  exact searchVideosModel_skip maxResults minS maxS searchItems i sn d st rest hbad

theorem spec_c7_witness :
    (searchVideosModel 2 (some 60) (some 1800) [some "aaaaaaaaaaa"] [demoItem]).length ≤ 2 :=
  (spec_c7_search 2 (some 60) (some 1800) [some "aaaaaaaaaaa"] [demoItem] (by decide)).2.1

/-- Two catalog entries sharing one identity but carrying different data,
as can arise when two mood queries return the same video from two separate
details fetches. -/
def dupA : YouTubeVideoData :=
  { videoId := "xxxxxxxxxxx"
    title := "First Title"
    channelName := "ChanOne"
    channelId := "chhhhhhhhhh"
    duration := "PT10M"
    durationFormatted := "10:00"
    thumbnailUrl := ""
    publishedAt := ""
    description := ""
    viewCount := none }

/-- The later occurrence of the same identity with different data. -/
def dupB : YouTubeVideoData :=
  { dupA with title := "Second Title" }

/-- C2 (counterexample): with two occurrences of one identity, the
deduplicated set binds the identity to the SECOND (last) occurrence's data,
not the first occurrence's data as claimed: JavaScript `Map.set` overwrites
the value of an existing key. -/
theorem spec_c2_counterexample :
    uniqueVideosModel [dupA, dupB] = [dupB] ∧ dupB ≠ dupA ∧
    (uniqueVideosModel [dupA, dupB]).map (fun v => v.title) = ["Second Title"] := by
  decide

/-- C2 (amended): the deduplicated candidate set holds at most 20 entries,
contains each identity at most once (exactly once when at most 20 distinct
identities are present and the identity occurs in the merged list), at the
position of the identity's first occurrence, but bound to the data of the
LAST occurrence in merge order. -/
theorem spec_c2_amended (vs : List YouTubeVideoData) (k : String) :
    (uniqueVideosModel vs).length ≤ 20 ∧
    ((uniqueVideosModel vs).filter (fun v => v.videoId = k)).length ≤ 1 ∧
    (∀ v ∈ uniqueVideosModel vs,
      (vs.filter (fun w => w.videoId = v.videoId)).getLast? = some v) ∧
    ((jsMapValues vs).length ≤ 20 → (∃ w ∈ vs, w.videoId = k) →
      ((uniqueVideosModel vs).filter (fun v => v.videoId = k)).length = 1) := by
  have hnodup : ((uniqueVideosModel vs).map (fun w => w.videoId)).Nodup := by
    rw [uniqueVideosModel, List.map_take]
    exact (List.take_sublist 20 _).nodup (jsMapValues_keys_nodup vs)
  refine ⟨?_, nodup_keys_filter_length k _ hnodup, ?_, ?_⟩
  · exact List.length_take_le 20 _
  · intro v hv
    exact jsMapValues_lastOcc vs v (List.take_subset 20 _ hv)
  · intro hcap hex
    have htake : uniqueVideosModel vs = jsMapValues vs := by
      rw [uniqueVideosModel]
      exact List.take_of_length_le hcap
    rcases jsMapValues_keyExists vs k hex with ⟨u, hu, huk⟩
    have hmem : u ∈ (uniqueVideosModel vs).filter (fun v => v.videoId = k) := by
      rw [htake]
      exact List.mem_filter.mpr ⟨hu, by simp [huk]⟩
    have hpos : 0 < ((uniqueVideosModel vs).filter (fun v => v.videoId = k)).length :=
      List.length_pos_of_mem hmem
    have hle := nodup_keys_filter_length k _ hnodup
    omega

theorem spec_c2_witness :
    ((uniqueVideosModel [dupA, dupB]).filter
      (fun v => v.videoId = "xxxxxxxxxxx")).length = 1 :=
  (spec_c2_amended [dupA, dupB] "xxxxxxxxxxx").2.2.2 (by decide) (by decide)

/-- C5 (counterexample): an oracle response whose `selectedVideoId` is the
empty string — a string that is not a key of the (non-empty) candidate set —
makes the request FAIL (`!selectionData.selectedVideoId` treats `""` as
missing), contradicting the claim that any non-key selection is absorbed by
the fallback. -/
theorem spec_c5_counterexample :
    uniqueVideosModel (allVideosModel 15 ["Curious 🤔"] demoOutcomes) ≠ [] ∧
    (uniqueVideosModel (allVideosModel 15 ["Curious 🤔"] demoOutcomes)).find?
      (fun v => v.videoId = "") = none ∧
    fetchVideoSuggestionModel 15 ["Curious 🤔"] demoOutcomes
        (.ok (.parsed (some "") (some ["a", "b", "c"]) (some "s")))
      = .error .oracleNoSelection := by
  decide

/-- C5 (amended): for a non-empty candidate set and an oracle response whose
`selectedVideoId` is NON-EMPTY and not a key of the candidate set, the
request does not fail: the suggestion is assembled from the first candidate
in aggregation order, the oracle's tags are kept (defaulting to `[]`), its
summary is kept when present and non-empty, and the generic duration-based
summary is substituted when the summary is absent or empty. -/
theorem spec_c5_fallback (time : Nat) (moods : List String)
    (outcomes : List SearchOutcome) (tags : Option (List String))
    (summary : Option String) (selId : String)
    (first : YouTubeVideoData) (rest : List YouTubeVideoData)
    (hu : uniqueVideosModel (allVideosModel time moods outcomes) = first :: rest)
    (hsel : selId ≠ "")
    (hnk : (first :: rest).find? (fun v => v.videoId = selId) = none) :
    fetchVideoSuggestionModel time moods outcomes
        (.ok (.parsed (some selId) tags summary)) =
      .ok { title := first.title
            youtubeUrl := "https://www.youtube.com/watch?v=" ++ first.videoId
            thumbnailUrl := first.thumbnailUrl
            channelName := first.channelName
            duration := first.durationFormatted
            tags := tags.getD []
            promotionalSummary := some (jsOrStr summary (genericSummary time)) } := by
  unfold fetchVideoSuggestionModel
  rw [hu]
  simp only [selectStep, if_neg hsel, hnk]
  rfl

/-- The catalog entry the search model builds from `demoItem`. -/
def demoEntry : YouTubeVideoData :=
  { videoId := "aaaaaaaaaaa"
    title := "Calm Flight"
    channelName := "SkyDocs"
    channelId := "ch111111111"
    duration := "PT14M32S"
    durationFormatted := "14:32"
    thumbnailUrl := "h.jpg"
    publishedAt := "2024-01-01T00:00:00Z"
    description := "A quiet documentary."
    viewCount := some 1200 }

example :
    uniqueVideosModel (allVideosModel 15 ["Curious 🤔"] demoOutcomes) = [demoEntry] := by
  decide

theorem spec_c5_witness :
    fetchVideoSuggestionModel 15 ["Curious 🤔"] demoOutcomes
        (.ok (.parsed (some "zzzzzzzzzzz") (some ["Calm"]) none)) =
      .ok { title := demoEntry.title
            youtubeUrl := "https://www.youtube.com/watch?v=" ++ demoEntry.videoId
            thumbnailUrl := demoEntry.thumbnailUrl
            channelName := demoEntry.channelName
            duration := demoEntry.durationFormatted
            tags := (some ["Calm"]).getD []
            promotionalSummary := some (jsOrStr none (genericSummary 15)) } :=
  spec_c5_fallback 15 ["Curious 🤔"] demoOutcomes (some ["Calm"]) none "zzzzzzzzzzz"
    demoEntry [] (by decide) (by decide) (by decide)

/-- C6 (counterexample): a JSON response in which both required fields
`tags` and `promotionalSummary` are ABSENT does not fail: the code only
checks `selectedVideoId`, defaults `tags` to `[]`, and passes the absent
summary through.  So the pipeline does not fail "exactly when a required
field is absent". -/
theorem spec_c6_counterexample :
    fetchVideoSuggestionModel 15 ["Curious 🤔"] demoOutcomes
        (.ok (.parsed (some "aaaaaaaaaaa") none none)) =
      .ok { title := "Calm Flight"
            youtubeUrl := "https://www.youtube.com/watch?v=aaaaaaaaaaa"
            thumbnailUrl := "h.jpg"
            channelName := "SkyDocs"
            duration := "14:32"
            tags := []
            promotionalSummary := none } := by
  decide

/-- C6 (amended): given a non-empty candidate set, the pipeline fails with
an oracle-response error exactly when the response text does not deserialize
as JSON or its `selectedVideoId` field is absent or the empty string; the
`tags` and `summary` fields are never validated. -/
theorem spec_c6_oracle_invalid (time : Nat) (moods : List String)
    (outcomes : List SearchOutcome) (resp : GeminiResponse)
    (first : YouTubeVideoData) (rest : List YouTubeVideoData)
    (hu : uniqueVideosModel (allVideosModel time moods outcomes) = first :: rest) :
    (fetchVideoSuggestionModel time moods outcomes (.ok resp) = .error .oracleParseError ∨
     fetchVideoSuggestionModel time moods outcomes (.ok resp) = .error .oracleNoSelection)
    ↔ (resp = .malformedJSON ∨
        ∃ tags summary, resp = .parsed none tags summary ∨
          resp = .parsed (some "") tags summary) := by
  unfold fetchVideoSuggestionModel
  rw [hu]
  cases resp with
  | malformedJSON =>
    refine iff_of_true (Or.inl ?_) (Or.inl rfl)
    simp [selectStep]
  | parsed sel tags summary =>
    cases sel with
    | none =>
      refine iff_of_true (Or.inr ?_) (Or.inr ⟨tags, summary, Or.inl rfl⟩)
      simp [selectStep]
    | some selId =>
      by_cases hsel : selId = ""
      · subst hsel
        refine iff_of_true (Or.inr ?_) (Or.inr ⟨tags, summary, Or.inr rfl⟩)
        simp [selectStep]
      · refine iff_of_false ?_ ?_
        · cases hfind : (first :: rest).find? (fun v => v.videoId = selId) with
          | some v => simp [selectStep, if_neg hsel, hfind]
          | none => simp [selectStep, if_neg hsel, hfind]
        · rintro (h | ⟨tags', summary', h | h⟩) <;> simp_all

theorem spec_c6_witness :
    (fetchVideoSuggestionModel 15 ["Curious 🤔"] demoOutcomes
        (.ok (.parsed none none none)) = .error .oracleParseError ∨
     fetchVideoSuggestionModel 15 ["Curious 🤔"] demoOutcomes
        (.ok (.parsed none none none)) = .error .oracleNoSelection)
    ↔ (GeminiResponse.parsed none none none = .malformedJSON ∨
        ∃ tags summary,
          GeminiResponse.parsed none none none = .parsed none tags summary ∨
          GeminiResponse.parsed none none none = .parsed (some "") tags summary) :=
  spec_c6_oracle_invalid 15 ["Curious 🤔"] demoOutcomes (.parsed none none none)
    demoEntry [] (by decide)

/-- Modelled from the claim's words (C9): the mood label with all
non-alphanumeric, non-space characters stripped, falling back to the raw
label when stripping yields the empty string. -/
def claimedQuery (mood : String) : String :=
  let stripped : String := ⟨mood.data.filter (fun c => c.isAlphanum || c = ' ')⟩
  if stripped = "" then mood else stripped

/-- C9 (counterexample): the code's query differs from the claimed one: the
regex class `\w` KEEPS underscores (claimed stripping removes them), and the
code additionally trims surrounding whitespace (the claimed query keeps a
trailing space left by a stripped emoji). -/
theorem spec_c9_counterexample :
    cleanQuery "a_b" = "a_b" ∧ claimedQuery "a_b" = "ab" ∧
    cleanQuery "a_b" ≠ claimedQuery "a_b" ∧
    cleanQuery "hi 🙂" = "hi" ∧ claimedQuery "hi 🙂" = "hi " ∧
    cleanQuery "hi 🙂" ≠ claimedQuery "hi 🙂" := by
  decide

/-- Amended query description (C9): keep ASCII alphanumerics, underscore and
ECMAScript whitespace (including Unicode spaces such as NBSP), then trim
that whitespace set from both ends; fall back to the raw label when the
result is empty. -/
def amendedQuery (mood : String) : String :=
  let trimmed := jsTrim ⟨mood.data.filter (fun c => c.isAlphanum || c = '_' || jsSpaceChar c)⟩
  if trimmed = "" then mood else trimmed

/-- C9 (amended): every issued query is the mood label filtered to ASCII
alphanumerics, underscore and ECMAScript whitespace and then trimmed of that
whitespace at both ends (falling back to the raw label when empty), and
every video any mood query contributes was filtered against the shared
DurationBand bounds. -/
theorem spec_c9_query (time : Nat) (moods : List String) (outcomes : List SearchOutcome) :
    (∀ mood, cleanQuery mood = amendedQuery mood) ∧
    (∀ v ∈ allVideosModel time moods outcomes,
      durationWithin (some (getDurationRange time).1) (some (getDurationRange time).2) v) := by
  constructor
  · intro mood
    have hfun : (fun c => jsWordChar c || jsSpaceChar c)
        = (fun c => c.isAlphanum || c = '_' || jsSpaceChar c) := by
      funext c
      simp [jsWordChar, Bool.or_assoc]
    simp [cleanQuery, amendedQuery, hfun]
  · exact mem_allVideos_within time moods outcomes

theorem spec_c9_witness :
    cleanQuery "Cozy ✨" = amendedQuery "Cozy ✨" ∧
    durationWithin (some 720) (some 1800) demoEntry := by
  constructor
  · exact (spec_c9_query 15 ["Curious 🤔"] demoOutcomes).1 "Cozy ✨"
  · have h := (spec_c9_query 15 ["Curious 🤔"] demoOutcomes).2 demoEntry (by decide)
    have e : getDurationRange 15 = (720, 1800) := by decide
    rw [e] at h
    exact h
